import Mathlib

/-!
Verification of the recommendation engine in `src/app.py` (Agri-Backend).

The Python source is shallowly embedded below.  Conventions used throughout:

* Python `float` values are modelled as exact rationals (`ℚ`); every claim
  under scrutiny is about exact comparisons, medians and linear arithmetic,
  none of which hinge on binary floating-point rounding.
* A raw mandi record (`record.get("commodity")`, `record.get("modal_price")`)
  is modelled with `Option` fields.  `modal_price : Option ℚ` carries the
  already-parsed price; `none` stands for a missing field, an empty string,
  or a string rejected by Python's `float(...)` (the `try/except` at
  app.py:96-99).  A numeric `0` price would be dropped by the truthiness
  check `not price` in Python and by the `< 100` outlier bound here — the
  embedding is extensionally identical on every record.
* Python `dict` preserves insertion order, and `get_price_for_crop` iterates
  over the keys in that order; the price dictionary is therefore modelled as
  an insertion-ordered association list.
* `list.sort(key=..., reverse=True)` is Python's stable sort ordered by the
  key descending; it is realised by `List.insertionSort` with the relation
  `recGE` below, which is stable in exactly the same sense (proved, not
  assumed, in the ranking theorem).
* `round(x, 2)` is round-half-to-even at two decimal places (`pyRound2`).
* The trained yield model is opaque in the source (`model.predict`); the
  embedding takes an arbitrary `predictor : Features → ℚ` argument.
-/

/-- Python's `str.lower()` on one character: ASCII letters are mapped to
lower case (the crop and commodity names in play are ASCII). -/
def charLower (c : Char) : Char :=
  if 'A' ≤ c && c ≤ 'Z' then Char.ofNat (c.toNat + 32) else c

/-- Python's `str.lower()`. -/
def pyLower (s : String) : String := ⟨s.data.map charLower⟩

/-- ASCII whitespace, as stripped by Python's `str.strip()`. -/
def isPySpace (c : Char) : Bool :=
  c == ' ' || c == '\t' || c == '\n' || c == '\r' || c == '\x0b' || c == '\x0c'

/-- Python's `str.strip()`: drop whitespace from both ends. -/
def pyStrip (s : String) : String :=
  ⟨((s.data.dropWhile isPySpace).reverse.dropWhile isPySpace).reverse⟩

/-- Python's substring test `pat in s`, on explicit character lists:
`charsStartWith s p` holds when `p` heads `s`. -/
def charsStartWith : List Char → List Char → Bool
  | _, [] => true
  | [], _ :: _ => false
  | a :: as, b :: bs => a == b && charsStartWith as bs

/-- `charsContain s p` holds when `p` occurs contiguously inside `s`. -/
def charsContain : List Char → List Char → Bool
  | [], pat => pat.isEmpty
  | a :: as, pat => charsStartWith (a :: as) pat || charsContain as pat

/-- Python's `pat in s` for strings. -/
def strContains (s pat : String) : Bool :=
  charsContain s.toList pat.toList

/-- One raw record from the data.gov.in mandi feed, as consumed by
`build_price_dictionary` (app.py:89-91).  See the header comment for the
`Option ℚ` reading of `modal_price`. -/
structure RawRecord where
  commodity : Option String
  modal_price : Option ℚ
deriving DecidableEq

/-- Ordered-association-list lookup (Python `d[k]` / `k in d`). -/
def alistGet {α : Type} : List (String × α) → String → Option α
  | [], _ => none
  | (k', v) :: rest, k => if k' = k then some v else alistGet rest k

/-- `price_dict[commodity_clean].append(price)` with the
`if commodity_clean not in price_dict` initialisation (app.py:109-112):
append to an existing key's list, else add the key at the end
(Python dicts preserve insertion order). -/
def appendPrice : List (String × List ℚ) → String → ℚ → List (String × List ℚ)
  | [], k, p => [(k, [p])]
  | (k', l) :: rest, k, p =>
    if k' = k then (k', l ++ [p]) :: rest else (k', l) :: appendPrice rest k p

/-- The body of the record loop in `build_price_dictionary` (app.py:89-112):
skip records with a falsy commodity or a missing/unparseable price, apply the
outlier bounds `price < 100` / `price > 30000`, then group the price under
the lower-cased, trimmed commodity name. -/
def priceStep (d : List (String × List ℚ)) (r : RawRecord) : List (String × List ℚ) :=
  match r.commodity, r.modal_price with
  | some c, some p =>
    if c = "" then d
    else if p < 100 then d
    else if p > 30000 then d
    else appendPrice d (pyStrip (pyLower c)) p
  | _, _ => d

/-- The grouping phase of `build_price_dictionary`: the `for record in
records` loop (app.py:89-112). -/
def groupRecords (records : List RawRecord) : List (String × List ℚ) :=
  records.foldl priceStep []

/-- `statistics.median`: sort ascending; middle element for odd length,
mean of the two middle elements for even length.  (Python raises on an empty
list; the source only ever applies it to non-empty groups, and the junk
value `0` returned here on `[]` is never reached.) -/
def median (l : List ℚ) : ℚ :=
  let s := List.insertionSort (· ≤ ·) l
  let n := l.length
  if n % 2 = 1 then s.getD (n / 2) 0
  else (s.getD (n / 2 - 1) 0 + s.getD (n / 2) 0) / 2

/-- `build_price_dictionary` (app.py:86-118): group surviving quotes by
normalized commodity, then replace each group by its median. -/
def build_price_dictionary (records : List RawRecord) : List (String × ℚ) :=
  (groupRecords records).map (fun kv => (kv.1, median kv.2))

/-- The key-scanning loop of `get_price_for_crop` (app.py:124-134), with
`crop_name` already lower-cased: skip a commodity when the crop name
contains "chilli", the commodity contains "dry" and the crop name contains
"green"; otherwise return the first commodity's price in which the crop
name occurs as a substring; `0` when no key matches. -/
def lookupPrice (crop_name : String) : List (String × ℚ) → ℚ
  | [] => 0
  | (commodity, p) :: rest =>
    if strContains crop_name "chilli" &&
       (strContains commodity "dry" && strContains crop_name "green") then
      lookupPrice crop_name rest
    else if strContains commodity crop_name then p
    else lookupPrice crop_name rest

/-- `get_price_for_crop` (app.py:121-134). -/
def get_price_for_crop (crop_name : String) (price_dict : List (String × ℚ)) : ℚ :=
  lookupPrice (pyLower crop_name) price_dict

/-- One row of the crop-master catalog CSV, with the fields the engine reads
(app.py:173-206).  Season/soil flags are CSV integers compared with `!= 1`;
`crop_id` feeds the feature vector, `total_cost_per_acre` the financials. -/
structure CropRow where
  crop_id : ℚ
  crop_name : String
  season_kharif : Int
  season_rabi : Int
  soil_black : Int
  soil_red : Int
  soil_alluvial : Int
  total_cost_per_acre : ℚ
deriving DecidableEq

/-- The rule-filtering block of `predict` (app.py:173-183): the crop survives
when none of the five `continue` conditions fires. -/
def passes_filter (season soil : String) (crop : CropRow) : Bool :=
  !(pyLower season == "kharif" && crop.season_kharif != 1) &&
  !(pyLower season == "rabi" && crop.season_rabi != 1) &&
  !(pyLower soil == "black" && crop.soil_black != 1) &&
  !(pyLower soil == "red" && crop.soil_red != 1) &&
  !(pyLower soil == "alluvial" && crop.soil_alluvial != 1)

/-- The 11-column feature record handed to the model (app.py:185-197). -/
structure Features where
  district_mean_rainfall : ℚ
  rainfall_mm : ℚ
  crop_id : ℚ
  soil_black : ℚ
  soil_red : ℚ
  soil_alluvial : ℚ
  irrigation_rainfed : ℚ
  irrigation_borewell : ℚ
  irrigation_canal : ℚ
  season_kharif : ℚ
  season_rabi : ℚ
deriving DecidableEq

/-- Feature assembly (app.py:185-197): one-hot soil/irrigation/season flags
from the lower-cased request strings. -/
def make_features (district_mean rainfall : ℚ) (soil irrigation season : String)
    (crop : CropRow) : Features :=
  { district_mean_rainfall := district_mean
    rainfall_mm := rainfall
    crop_id := crop.crop_id
    soil_black := if pyLower soil == "black" then 1 else 0
    soil_red := if pyLower soil == "red" then 1 else 0
    soil_alluvial := if pyLower soil == "alluvial" then 1 else 0
    irrigation_rainfed := if pyLower irrigation == "rainfed" then 1 else 0
    irrigation_borewell := if pyLower irrigation == "borewell" then 1 else 0
    irrigation_canal := if pyLower irrigation == "canal" then 1 else 0
    season_kharif := if pyLower season == "kharif" then 1 else 0
    season_rabi := if pyLower season == "rabi" then 1 else 0 }

/-- `roi = (expected_profit / investment) * 100 if investment > 0 else 0`
(app.py:210); the division only ever happens under the positivity guard. -/
def compute_roi (expected_profit investment : ℚ) : ℚ :=
  if investment > 0 then expected_profit / investment * 100 else 0

/-- The risk-tier ladder (app.py:212-217). -/
def risk_level (roi : ℚ) : String :=
  if roi > 200 then "High Reward (High Market Volatility)"
  else if roi > 80 then "Moderate"
  else "Stable"

/-- Round-half-to-even to an integer, on exact rationals. -/
def roundHalfEven (x : ℚ) : ℤ :=
  let f := ⌊x⌋
  let frac := x - (f : ℚ)
  if frac < 1 / 2 then f
  else if frac > 1 / 2 then f + 1
  else if 2 ∣ f then f else f + 1

/-- Python's `round(x, 2)` on exact rationals. -/
def pyRound2 (q : ℚ) : ℚ :=
  (roundHalfEven (q * 100) : ℚ) / 100

/-- One entry of the response's `recommendations` array (app.py:219-227). -/
structure Recommendation where
  crop : String
  predicted_yield : ℚ
  market_price_per_quintal : ℚ
  investment : ℚ
  expected_profit : ℚ
  roi_percent : ℚ
  risk_level : String
deriving DecidableEq

/-- The financial block of the crop loop (app.py:206-227): investment,
revenue, expected profit, guarded ROI, risk tier, and the rounded record
appended to `recommendations`. -/
def evaluate (crop : CropRow) (predicted_yield price land_area : ℚ) : Recommendation :=
  let investment := crop.total_cost_per_acre * land_area
  let revenue := predicted_yield * land_area * price
  let expected_profit := revenue - investment
  let roi := compute_roi expected_profit investment
  { crop := crop.crop_name
    predicted_yield := pyRound2 predicted_yield
    market_price_per_quintal := pyRound2 price
    investment := pyRound2 investment
    expected_profit := pyRound2 expected_profit
    roi_percent := pyRound2 roi
    risk_level := risk_level roi }

/-- The sort relation of `recommendations.sort(key=lambda x:
x["expected_profit"], reverse=True)` (app.py:229): `a` may precede `b`
when `a`'s stored expected profit is at least `b`'s. -/
def recGE (a b : Recommendation) : Prop :=
  b.expected_profit ≤ a.expected_profit

instance : DecidableRel recGE := fun a b => by unfold recGE; infer_instance

instance : IsTotal Recommendation recGE :=
  ⟨fun a b => le_total b.expected_profit a.expected_profit⟩

instance : IsTrans Recommendation recGE :=
  ⟨fun _ _ _ h h' => le_trans h' h⟩

/-- `recommendations.sort(... reverse=True)` followed by `[:3]`
(app.py:229-232): a stable descending sort by stored expected profit,
truncated to the first three entries. -/
def rank (l : List Recommendation) : List Recommendation :=
  (List.insertionSort recGE l).take 3

/-- The body of the crop loop in `predict` (app.py:170-227) for a single
catalog row: rule filtering, feature assembly, opaque yield prediction,
price resolution with the `price == 0` skip, then `evaluate`. -/
def eval_crop (season soil irrigation : String) (rainfall land_area district_mean : ℚ)
    (predictor : Features → ℚ) (price_dict : List (String × ℚ))
    (crop : CropRow) : Option Recommendation :=
  if passes_filter season soil crop then
    let fea := make_features district_mean rainfall soil irrigation season crop
    let predicted_yield := predictor fea
    let price := get_price_for_crop crop.crop_name price_dict
    if price = 0 then none
    else some (evaluate crop predicted_yield price land_area)
  else none

/-- The static district rainfall table (app.py:50-61). -/
def district_rainfall : List (String × ℚ) :=
  [("Mandya", 806), ("Mysuru", 798), ("Hassan", 1031),
   ("Chikkamagaluru", 1925), ("Shivamogga", 1813),
   ("Kodagu", 2718), ("Udupi", 4119),
   ("Dakshina Kannada", 3975), ("Uttara Kannada", 2835),
   ("Belagavi", 808), ("Dharwad", 772),
   ("Haveri", 753), ("Tumakuru", 688),
   ("Raichur", 621), ("Bagalkote", 562),
   ("Vijayapura", 578), ("Kolar", 744),
   ("Bengaluru Rural", 885), ("Ballari", 636),
   ("Gulbarga", 777)]

/-- `district_rainfall.get(district, 800)` (app.py:163). -/
def district_mean_of (district : String) : ℚ :=
  (alistGet district_rainfall district).getD 800

/-- The `/predict` handler's engine (app.py:150-233), abstracted over the
request fields, the opaque predictor, and the raw mandi records returned by
`fetch_karnataka_prices`.  `available_profit` is the parsed
`float(data["profit"])` request field (app.py:161). -/
def predict_route (catalog : List CropRow) (district season soil irrigation : String)
    (rainfall land_area available_profit : ℚ) (predictor : Features → ℚ)
    (mandi_records : List RawRecord) : List Recommendation :=
  let district_mean := district_mean_of district
  let price_dict := build_price_dictionary mandi_records
  rank (catalog.filterMap
    (eval_crop season soil irrigation rainfall land_area district_mean predictor price_dict))

/-- Fixture: a recommendation with a given name and stored expected profit
(the other fields are irrelevant to ranking). -/
def mkRec (name : String) (profit : ℚ) : Recommendation :=
  ⟨name, 0, 0, 0, profit, 0, "Stable"⟩

/-- Fixture: a catalog row named "ragi", kharif- and red/black-soil
compatible, costing 10000 per acre. -/
def mkCrop : CropRow := ⟨7, "ragi", 1, 0, 1, 1, 0, 10000⟩

/-!  Helper lemmas shared by several of the claim theorems below. -/

/-- For a green-chilli query the scanning loop never looks at a "dry"
commodity: the dictionary may be pre-filtered without changing the result. -/
theorem lookupPrice_skip_dry (name : String)
    (hch : strContains name "chilli" = true) (hgr : strContains name "green" = true)
    (d : List (String × ℚ)) :
    lookupPrice name d = lookupPrice name (d.filter fun kv => !strContains kv.1 "dry") := by
  induction d with
  | nil => rfl
  | cons kv rest ih =>
    obtain ⟨k, p⟩ := kv
    by_cases hd : strContains k "dry" = true
    · simp only [lookupPrice, hch, hgr, hd, Bool.and_self, Bool.and_true, if_true,
        List.filter_cons, Bool.not_true, ite_false]
      exact ih
    · simp only [Bool.not_eq_true] at hd
      simp only [lookupPrice, hch, hgr, hd, Bool.false_and, Bool.and_false, if_false,
        List.filter_cons, Bool.not_false, ite_true, lookupPrice, ih]

/-- The result of the scanning loop is `0` or the price of some entry. -/
theorem lookupPrice_mem (name : String) (d : List (String × ℚ)) :
    lookupPrice name d = 0 ∨ ∃ kv ∈ d, lookupPrice name d = kv.2 := by
  induction d with
  | nil => exact Or.inl rfl
  | cons kv rest ih =>
    obtain ⟨k, p⟩ := kv
    rw [lookupPrice]
    split_ifs with h1 h2
    · rcases ih with h | ⟨kv', hmem, heq⟩
      · exact Or.inl h
      · exact Or.inr ⟨kv', List.mem_cons_of_mem _ hmem, heq⟩
    · exact Or.inr ⟨(k, p), List.mem_cons_self .., rfl⟩
    · rcases ih with h | ⟨kv', hmem, heq⟩
      · exact Or.inl h
      · exact Or.inr ⟨kv', List.mem_cons_of_mem _ hmem, heq⟩

/-- Every defaulted index into a list within bounds is a member. -/
theorem getD_mem_of_lt {l : List ℚ} {i : Nat} (h : i < l.length) : l.getD i 0 ∈ l := by
  rw [List.getD_eq_getElem l 0 h]
  exact List.getElem_mem h

/-- The median of a non-empty list lies between any common lower and upper
bound of its elements. -/
theorem median_bounds {l : List ℚ} (hne : l ≠ []) {lo hi : ℚ}
    (h : ∀ x ∈ l, lo ≤ x ∧ x ≤ hi) : lo ≤ median l ∧ median l ≤ hi := by
  have hlen : (List.insertionSort (· ≤ ·) l).length = l.length :=
    List.length_insertionSort _ _
  have hmem : ∀ i, i < l.length →
      lo ≤ (List.insertionSort (· ≤ ·) l).getD i 0 ∧
        (List.insertionSort (· ≤ ·) l).getD i 0 ≤ hi := by
    intro i hi2
    have : (List.insertionSort (· ≤ ·) l).getD i 0 ∈ List.insertionSort (· ≤ ·) l :=
      getD_mem_of_lt (by rw [hlen]; exact hi2)
    exact h _ ((List.perm_insertionSort _ l).mem_iff.mp this)
  have hpos : 0 < l.length := List.length_pos.mpr hne
  simp only [median]
  split_ifs with hodd
  · exact hmem _ (Nat.div_lt_self hpos (by norm_num))
  · have h2 : 2 ≤ l.length := by omega
    obtain ⟨ha1, ha2⟩ := hmem (l.length / 2 - 1) (by omega)
    obtain ⟨hb1, hb2⟩ := hmem (l.length / 2) (Nat.div_lt_self hpos (by norm_num))
    constructor <;> [linarith; linarith]

/-- `appendPrice` preserves the invariant that every group is non-empty
with all its prices inside the outlier bounds, provided the new price is. -/
theorem appendPrice_good {d : List (String × List ℚ)}
    (hd : ∀ kv ∈ d, kv.2 ≠ [] ∧ ∀ q ∈ kv.2, 100 ≤ q ∧ q ≤ 30000)
    (k : String) {p : ℚ} (hp : 100 ≤ p ∧ p ≤ 30000) :
    ∀ kv ∈ appendPrice d k p, kv.2 ≠ [] ∧ ∀ q ∈ kv.2, 100 ≤ q ∧ q ≤ 30000 := by
  induction d with
  | nil =>
    intro kv hkv
    simp only [appendPrice, List.mem_singleton] at hkv
    subst hkv
    refine ⟨by simp, ?_⟩
    intro q hq
    simp only [List.mem_singleton] at hq
    subst hq
    exact hp
  | cons kv' rest ih =>
    obtain ⟨k', l'⟩ := kv'
    intro kv hkv
    rw [appendPrice] at hkv
    split_ifs at hkv with hk
    · rcases List.mem_cons.mp hkv with h | h
      · subst h
        obtain ⟨-, hall⟩ := hd (k', l') (List.mem_cons_self ..)
        refine ⟨by simp, ?_⟩
        intro q hq
        rcases List.mem_append.mp hq with h' | h'
        · exact hall q h'
        · simp only [List.mem_singleton] at h'
          subst h'
          exact hp
      · exact hd kv (List.mem_cons_of_mem _ h)
    · rcases List.mem_cons.mp hkv with h | h
      · subst h
        exact hd (k', l') (List.mem_cons_self ..)
      · exact ih (fun kv' hkv' => hd kv' (List.mem_cons_of_mem _ hkv')) kv h

/-- One pass of the record loop preserves the group invariant. -/
theorem priceStep_good {d : List (String × List ℚ)}
    (hd : ∀ kv ∈ d, kv.2 ≠ [] ∧ ∀ q ∈ kv.2, 100 ≤ q ∧ q ≤ 30000) (r : RawRecord) :
    ∀ kv ∈ priceStep d r, kv.2 ≠ [] ∧ ∀ q ∈ kv.2, 100 ≤ q ∧ q ≤ 30000 := by
  unfold priceStep
  match r with
  | ⟨none, _⟩ => exact hd
  | ⟨some c, none⟩ => exact hd
  | ⟨some c, some p⟩ =>
    dsimp only
    split_ifs with h1 h2 h3
    · exact hd
    · exact hd
    · exact hd
    · exact appendPrice_good hd _ ⟨by linarith, by linarith⟩

/-- Every group produced by the grouping phase is non-empty and bounded. -/
theorem groupRecords_good (records : List RawRecord) :
    ∀ kv ∈ groupRecords records, kv.2 ≠ [] ∧ ∀ q ∈ kv.2, 100 ≤ q ∧ q ≤ 30000 := by
  unfold groupRecords
  suffices h : ∀ d, (∀ kv ∈ d, kv.2 ≠ [] ∧ ∀ q ∈ kv.2, 100 ≤ q ∧ q ≤ 30000) →
      ∀ kv ∈ records.foldl priceStep d, kv.2 ≠ [] ∧ ∀ q ∈ kv.2, 100 ≤ q ∧ q ≤ 30000 by
    exact h [] (by simp)
  induction records with
  | nil => intro d hd; simpa using hd
  | cons r rest ih =>
    intro d hd
    exact ih _ (priceStep_good hd r)

/-- Every price stored in the final dictionary is inside the outlier bounds. -/
theorem build_price_dictionary_bounds (records : List RawRecord) :
    ∀ kv ∈ build_price_dictionary records, 100 ≤ kv.2 ∧ kv.2 ≤ 30000 := by
  intro kv hkv
  unfold build_price_dictionary at hkv
  rw [List.mem_map] at hkv
  obtain ⟨⟨k, l⟩, hmem, heq⟩ := hkv
  obtain ⟨hne, hall⟩ := groupRecords_good records _ hmem
  subst heq
  exact median_bounds hne hall

/-- Round-half-to-even never falls below the floor. -/
theorem roundHalfEven_ge_floor (x : ℚ) : ⌊x⌋ ≤ roundHalfEven x := by
  simp only [roundHalfEven]
  split_ifs <;> omega

/-- Rounding to two decimals keeps values at least 100 at least 100. -/
theorem pyRound2_ge_100 {q : ℚ} (h : 100 ≤ q) : 100 ≤ pyRound2 q := by
  unfold pyRound2
  have h1 : (10000 : ℤ) ≤ ⌊q * 100⌋ := by
    rw [Int.le_floor]
    push_cast
    linarith
  have h2 : (10000 : ℤ) ≤ roundHalfEven (q * 100) :=
    le_trans h1 (roundHalfEven_ge_floor _)
  have h3 : (10000 : ℚ) ≤ (roundHalfEven (q * 100) : ℚ) := by exact_mod_cast h2
  linarith

/-- Anything in the ranked output was one of the candidate recommendations. -/
theorem mem_of_mem_rank {r : Recommendation} {l : List Recommendation}
    (h : r ∈ rank l) : r ∈ l :=
  (List.perm_insertionSort recGE l).mem_iff.mp (List.take_subset _ _ h)

/-- Correspondence for the engine output: every emitted recommendation comes
from a catalog row that passed the rule filter and resolved to a non-zero
price, and is exactly the financial evaluation of that row. -/
theorem predict_route_spec (catalog : List CropRow)
    (district season soil irrigation : String)
    (rainfall land_area available_profit : ℚ) (predictor : Features → ℚ)
    (records : List RawRecord) (r : Recommendation)
    (hr : r ∈ predict_route catalog district season soil irrigation rainfall land_area
        available_profit predictor records) :
    ∃ crop ∈ catalog, passes_filter season soil crop = true ∧
      get_price_for_crop crop.crop_name (build_price_dictionary records) ≠ 0 ∧
      r = evaluate crop
            (predictor (make_features (district_mean_of district) rainfall soil irrigation
              season crop))
            (get_price_for_crop crop.crop_name (build_price_dictionary records)) land_area := by
  unfold predict_route at hr
  have hr' := mem_of_mem_rank hr
  rw [List.mem_filterMap] at hr'
  obtain ⟨crop, hcrop, heval⟩ := hr'
  unfold eval_crop at heval
  by_cases hpass : passes_filter season soil crop = true
  · rw [if_pos hpass] at heval
    by_cases hp0 : get_price_for_crop crop.crop_name (build_price_dictionary records) = 0
    · simp only [hp0, if_pos] at heval
      exact absurd heval (by simp)
    · simp only [hp0, if_neg, if_false] at heval
      exact ⟨crop, hcrop, hpass, hp0, (Option.some_inj.mp heval).symm⟩
  · rw [if_neg hpass] at heval
    exact absurd heval (by simp)

/-- A non-zero resolved price over a dictionary built by
`build_price_dictionary` is inside the outlier bounds. -/
theorem get_price_bounds (records : List RawRecord) (name : String) :
    get_price_for_crop name (build_price_dictionary records) = 0 ∨
      (100 ≤ get_price_for_crop name (build_price_dictionary records) ∧
        get_price_for_crop name (build_price_dictionary records) ≤ 30000) := by
  unfold get_price_for_crop
  rcases lookupPrice_mem (pyLower name) (build_price_dictionary records) with h | ⟨kv, hmem, heq⟩
  · exact Or.inl h
  · exact Or.inr (heq ▸ build_price_dictionary_bounds records kv hmem)

/-- Inserting a recommendation places it before every element of equal
stored profit: filtering a profit class commutes with `orderedInsert`. -/
theorem filter_orderedInsert_profit (v : ℚ) (a : Recommendation)
    (l : List Recommendation) :
    (List.orderedInsert recGE a l).filter (fun x => decide (x.expected_profit = v)) =
      if a.expected_profit = v
      then a :: l.filter (fun x => decide (x.expected_profit = v))
      else l.filter (fun x => decide (x.expected_profit = v)) := by
  induction l with
  | nil =>
    rw [List.orderedInsert_nil]
    by_cases ha : a.expected_profit = v <;> simp [ha]
  | cons b rest ih =>
    rw [List.orderedInsert]
    by_cases hab : recGE a b
    · rw [if_pos hab]
      by_cases ha : a.expected_profit = v <;> simp [ha]
    · rw [if_neg hab]
      have hb : a.expected_profit < b.expected_profit := lt_of_not_le hab
      by_cases ha : a.expected_profit = v
      · have hbv : ¬ b.expected_profit = v := by rw [← ha]; exact ne_of_gt hb
        simp [ha, hbv, ih]
      · by_cases hbv : b.expected_profit = v <;> simp [ha, hbv, ih]

/-- Stability of the ranking sort: within each class of equal stored profit
the sorted list keeps the original (evaluation) order. -/
theorem filter_insertionSort_profit (v : ℚ) (l : List Recommendation) :
    (List.insertionSort recGE l).filter (fun x => decide (x.expected_profit = v)) =
      l.filter (fun x => decide (x.expected_profit = v)) := by
  induction l with
  | nil => rfl
  | cons a rest ih =>
    rw [List.insertionSort, filter_orderedInsert_profit]
    by_cases ha : a.expected_profit = v <;> simp [ha, ih]

/-- Replacing every group by its median preserves keyed lookup. -/
theorem alistGet_map_median (groups : List (String × List ℚ)) (k : String)
    (l : List ℚ) (h : alistGet groups k = some l) :
    alistGet (groups.map fun kv => (kv.1, median kv.2)) k = some (median l) := by
  induction groups with
  | nil => simp [alistGet] at h
  | cons kv rest ih =>
    obtain ⟨k', l'⟩ := kv
    by_cases hk : k' = k
    · rw [alistGet, if_pos hk] at h
      simp only [List.map_cons, alistGet, if_pos hk]
      rw [Option.some_inj.mp h]
    · rw [alistGet, if_neg hk] at h
      simp only [List.map_cons, alistGet, if_neg hk]
      exact ih h

/-- Claim C1, counterexample: the query "chilli" contains "chilli" and does
not contain "dry", yet `get_price_for_crop` returns 500 — the price of the
commodity key "dry chilli", which does contain "dry".  The skip at
app.py:127-129 fires only when the crop name also contains "green", so a
bare "chilli" query does match a dry-chilli commodity. -/
theorem C1_counterexample :
    strContains (pyLower "chilli") "chilli" = true ∧
    strContains (pyLower "chilli") "dry" = false ∧
    strContains "dry chilli" "dry" = true ∧
    get_price_for_crop "chilli" [("dry chilli", 500)] = 500 := by
  decide

/-- Claim C1, amended: the dry-commodity skip is guarded by "green" in the
crop name, not by the absence of "dry".  For every price index and every
crop name whose lower-casing contains both "chilli" and "green", resolution
is unchanged when all commodity keys containing "dry" are removed — so such
a query never resolves to a dry commodity; in particular "green chilli"
does not match "dry chilli", while "dry chilli" does. -/
theorem C1_green_chilli_skips_dry :
    (∀ (price_dict : List (String × ℚ)) (crop_name : String),
      strContains (pyLower crop_name) "chilli" = true →
      strContains (pyLower crop_name) "green" = true →
      get_price_for_crop crop_name price_dict =
        get_price_for_crop crop_name
          (price_dict.filter fun kv => !strContains kv.1 "dry")) ∧
    get_price_for_crop "green chilli" [("dry chilli", 500)] = 0 ∧
    get_price_for_crop "dry chilli" [("dry chilli", 500)] = 500 := by
  refine ⟨?_, by decide, by decide⟩
  intro price_dict crop_name hch hgr
  unfold get_price_for_crop
  exact lookupPrice_skip_dry (pyLower crop_name) hch hgr price_dict

/-- Witness for the amended C1 theorem at the concrete query
"green chilli" over the index {"dry chilli" ↦ 500}. -/
theorem C1_green_chilli_skips_dry_witness :
    strContains (pyLower "green chilli") "chilli" = true ∧
    strContains (pyLower "green chilli") "green" = true ∧
    get_price_for_crop "green chilli" [("dry chilli", 500)] =
      get_price_for_crop "green chilli"
        (List.filter (fun kv => !strContains kv.1 "dry") [("dry chilli", 500)]) :=
  ⟨by decide, by decide,
    C1_green_chilli_skips_dry.1 [("dry chilli", 500)] "green chilli"
      (by decide) (by decide)⟩

/-- Claim C2, counterexample: "summer" is neither "kharif" nor "rabi" and
"sandy" is none of the three soils, yet a crop whose every compatibility
flag is 0 passes the filter — an unrecognized category disables the checks
(app.py:173-183 only tests flags under a recognized season/soil), it does
not fail closed. -/
theorem C2_counterexample :
    pyLower "summer" ≠ "kharif" ∧ pyLower "summer" ≠ "rabi" ∧
    pyLower "sandy" ≠ "black" ∧ pyLower "sandy" ≠ "red" ∧
    pyLower "sandy" ≠ "alluvial" ∧
    passes_filter "summer" "sandy" ⟨1, "paddy", 0, 0, 0, 0, 0, 10000⟩ = true := by
  decide

/-- Claim C2, amended: for a season that is (case-insensitively) neither
"kharif" nor "rabi" and a soil that is none of "black"/"red"/"alluvial",
the filter imposes no constraint at all — every crop passes (fail open),
whatever its compatibility flags. -/
theorem C2_unrecognized_fails_open (season soil : String) (crop : CropRow)
    (h1 : pyLower season ≠ "kharif") (h2 : pyLower season ≠ "rabi")
    (h3 : pyLower soil ≠ "black") (h4 : pyLower soil ≠ "red")
    (h5 : pyLower soil ≠ "alluvial") :
    passes_filter season soil crop = true := by
  simp [passes_filter, beq_eq_false_iff_ne.mpr h1, beq_eq_false_iff_ne.mpr h2,
    beq_eq_false_iff_ne.mpr h3, beq_eq_false_iff_ne.mpr h4, beq_eq_false_iff_ne.mpr h5]

/-- Witness for the amended C2 theorem: season "summer" and soil "sandy"
with an all-incompatible crop row. -/
theorem C2_unrecognized_fails_open_witness :
    (pyLower "summer" ≠ "kharif" ∧ pyLower "summer" ≠ "rabi" ∧
     pyLower "sandy" ≠ "black" ∧ pyLower "sandy" ≠ "red" ∧
     pyLower "sandy" ≠ "alluvial") ∧
    passes_filter "summer" "sandy" ⟨2, "wheat", 0, 0, 0, 0, 0, 8000⟩ = true :=
  ⟨⟨by decide, by decide, by decide, by decide, by decide⟩,
    C2_unrecognized_fails_open "summer" "sandy" ⟨2, "wheat", 0, 0, 0, 0, 0, 8000⟩
      (by decide) (by decide) (by decide) (by decide) (by decide)⟩

/-- Claim C3: a quote with a non-empty commodity and a parseable price is
kept by the aggregation loop exactly when its price lies in the inclusive
range [100, 30000]; at the boundaries, 100 and 30000 are grouped while 99
and 30001 are discarded. -/
theorem C3_outlier_range :
    (∀ (d : List (String × List ℚ)) (c : String) (p : ℚ), c ≠ "" →
      priceStep d ⟨some c, some p⟩ =
        if 100 ≤ p ∧ p ≤ 30000 then appendPrice d (pyStrip (pyLower c)) p else d) ∧
    groupRecords [⟨some "x", some 100⟩] = [("x", [100])] ∧
    groupRecords [⟨some "x", some 30000⟩] = [("x", [30000])] ∧
    groupRecords [⟨some "x", some 99⟩] = [] ∧
    groupRecords [⟨some "x", some 30001⟩] = [] := by
  refine ⟨?_, by decide, by decide, by decide, by decide⟩
  intro d c p hc
  show (if c = "" then d
    else if p < 100 then d
    else if p > 30000 then d
    else appendPrice d (pyStrip (pyLower c)) p) = _
  rw [if_neg hc]
  rcases lt_or_le p 100 with h1 | h1
  · rw [if_pos h1, if_neg]
    rintro ⟨h', -⟩
    linarith
  · rw [if_neg (not_lt.mpr h1)]
    rcases le_or_lt p 30000 with h2 | h2
    · rw [if_neg (not_lt.mpr h2), if_pos ⟨h1, h2⟩]
    · rw [if_pos h2, if_neg]
      rintro ⟨-, h'⟩
      linarith

/-- Witness for C3 at the in-range price 250 under commodity "x". -/
theorem C3_outlier_range_witness :
    ("x" : String) ≠ "" ∧
    priceStep [] ⟨some "x", some 250⟩ =
      if 100 ≤ (250 : ℚ) ∧ (250 : ℚ) ≤ 30000
      then appendPrice [] (pyStrip (pyLower "x")) 250 else [] :=
  ⟨by decide, C3_outlier_range.1 [] "x" 250 (by decide)⟩

/-- Claim C4: the dictionary built by `build_price_dictionary` stores, for
every commodity with at least one surviving quote, exactly the median of
that commodity's grouped quotes; on quotes [100, 100, 500] the stored price
is the median 100, not the mean 700/3. -/
theorem C4_median_not_mean :
    (∀ (records : List RawRecord) (c : String) (l : List ℚ),
      alistGet (groupRecords records) c = some l →
      alistGet (build_price_dictionary records) c = some (median l)) ∧
    median [100, 100, 500] = 100 ∧
    ((100 : ℚ) + 100 + 500) / 3 ≠ 100 ∧
    alistGet (build_price_dictionary
      [⟨some "ragi", some 100⟩, ⟨some "ragi", some 100⟩, ⟨some "ragi", some 500⟩])
      "ragi" = some 100 := by
  refine ⟨?_, by decide, by norm_num, by decide⟩
  intro records c l h
  exact alistGet_map_median (groupRecords records) c l h

/-- Witness for C4 at the quotes [100, 100, 500] for commodity "ragi". -/
theorem C4_median_not_mean_witness :
    alistGet (groupRecords
      [⟨some "ragi", some 100⟩, ⟨some "ragi", some 100⟩, ⟨some "ragi", some 500⟩])
      "ragi" = some [100, 100, 500] ∧
    alistGet (build_price_dictionary
      [⟨some "ragi", some 100⟩, ⟨some "ragi", some 100⟩, ⟨some "ragi", some 500⟩])
      "ragi" = some (median [100, 100, 500]) :=
  ⟨by decide,
    C4_median_not_mean.1
      [⟨some "ragi", some 100⟩, ⟨some "ragi", some 100⟩, ⟨some "ragi", some 500⟩]
      "ragi" [100, 100, 500] (by decide)⟩

/-- Claim C5: the risk tier is "High Reward (High Market Volatility)" iff
roi > 200, "Moderate" iff 80 < roi ≤ 200, and "Stable" iff roi ≤ 80; at
the boundaries, roi = 200 is "Moderate" and roi = 80 is "Stable". -/
theorem C5_risk_tiers :
    (∀ roi : ℚ,
      (risk_level roi = "High Reward (High Market Volatility)" ↔ 200 < roi) ∧
      (risk_level roi = "Moderate" ↔ 80 < roi ∧ roi ≤ 200) ∧
      (risk_level roi = "Stable" ↔ roi ≤ 80)) ∧
    risk_level 200 = "Moderate" ∧ risk_level 80 = "Stable" := by
  refine ⟨?_, by decide, by decide⟩
  intro roi
  unfold risk_level
  split_ifs with h1 h2
  · exact ⟨iff_of_true rfl h1,
      iff_of_false (by decide) (fun h => absurd h.2 (not_le.mpr h1)),
      iff_of_false (by decide) (not_le.mpr (by linarith))⟩
  · exact ⟨iff_of_false (by decide) h1,
      iff_of_true rfl ⟨h2, not_lt.mp h1⟩,
      iff_of_false (by decide) (not_le.mpr h2)⟩
  · exact ⟨iff_of_false (by decide) h1,
      iff_of_false (by decide) (fun h => absurd h.1 h2),
      iff_of_true rfl (not_lt.mp h2)⟩

/-- Claim C6: with positive investment the ROI is
(expected profit / investment) * 100; with investment ≤ 0 (including 0) it
is 0 — the guarded conditional never divides by zero, and `evaluate` wires
exactly this guarded value (rounded) into the reported `roi_percent`. -/
theorem C6_roi_guard :
    (∀ expected_profit investment : ℚ,
      (0 < investment →
        compute_roi expected_profit investment = expected_profit / investment * 100) ∧
      (investment ≤ 0 → compute_roi expected_profit investment = 0)) ∧
    (∀ (crop : CropRow) (predicted_yield price land_area : ℚ),
      (evaluate crop predicted_yield price land_area).roi_percent =
        pyRound2 (compute_roi
          (predicted_yield * land_area * price - crop.total_cost_per_acre * land_area)
          (crop.total_cost_per_acre * land_area))) := by
  constructor
  · intro ep inv
    constructor
    · intro h
      rw [compute_roi, if_pos h]
    · intro h
      rw [compute_roi, if_neg (not_lt.mpr h)]
  · intro crop y price area
    rfl

/-- Witness for C6: at investment 2 the positive branch, at investment 0
the guard, both on expected profit 50. -/
theorem C6_roi_guard_witness :
    (0 < (2 : ℚ) ∧ compute_roi 50 2 = 50 / 2 * 100) ∧
    ((0 : ℚ) ≤ 0 ∧ compute_roi 50 0 = 0) :=
  ⟨⟨by norm_num, (C6_roi_guard.1 50 2).1 (by norm_num)⟩,
   ⟨le_refl 0, (C6_roi_guard.1 50 0).2 (le_refl 0)⟩⟩

/-- Claim C7: the ranker sorts candidates by stored expected profit
descending (ties keep original evaluation order — the per-profit-class
subsequence of the sort equals that of the input), truncates to at most 3,
returns everything (a permutation, in sorted order) when at most 3
candidates exist, returns [] on no candidates, and on profits
[50, 200, 75, 10] emits [200, 75, 50]. -/
theorem C7_ranker :
    (∀ l : List Recommendation, List.Sorted recGE (rank l)) ∧
    (∀ l : List Recommendation, (rank l).length = min 3 l.length) ∧
    (∀ l : List Recommendation, l.length ≤ 3 → (rank l).Perm l) ∧
    rank [] = [] ∧
    (∀ (l : List Recommendation) (v : ℚ),
      (List.insertionSort recGE l).filter (fun x => decide (x.expected_profit = v)) =
        l.filter (fun x => decide (x.expected_profit = v))) ∧
    (rank [mkRec "a" 50, mkRec "b" 200, mkRec "c" 75, mkRec "d" 10]).map
      Recommendation.expected_profit = [200, 75, 50] := by
  refine ⟨?_, ?_, ?_, rfl, fun l v => filter_insertionSort_profit v l, by decide⟩
  · intro l
    exact List.Pairwise.sublist (List.take_sublist _ _)
      (List.sorted_insertionSort recGE l)
  · intro l
    rw [rank, List.length_take, List.length_insertionSort]
  · intro l h
    rw [rank, List.take_of_length_le (by rw [List.length_insertionSort]; exact h)]
    exact List.perm_insertionSort recGE l

/-- Witness for C7's permutation clause at a concrete two-element list. -/
theorem C7_ranker_witness :
    ([mkRec "a" 1, mkRec "b" 5] : List Recommendation).length ≤ 3 ∧
    (rank [mkRec "a" 1, mkRec "b" 5]).Perm [mkRec "a" 1, mkRec "b" 5] :=
  ⟨by decide, C7_ranker.2.2.1 [mkRec "a" 1, mkRec "b" 5] (by decide)⟩

/-- Claim C9: the engine's output does not depend on the `profit`
(available capital) request field: two runs differing only in it coincide. -/
theorem C9_profit_unused (catalog : List CropRow)
    (district season soil irrigation : String)
    (rainfall land_area p₁ p₂ : ℚ) (predictor : Features → ℚ)
    (records : List RawRecord) :
    predict_route catalog district season soil irrigation rainfall land_area p₁
        predictor records =
      predict_route catalog district season soil irrigation rainfall land_area p₂
        predictor records := rfl

/-- Claim C8: every emitted recommendation corresponds to a catalog crop
that passed the season/soil filter and whose name resolved to a non-zero —
indeed strictly positive — market price; a crop resolving to price 0 is
skipped and never reported. -/
theorem C8_output_invariant (catalog : List CropRow)
    (district season soil irrigation : String)
    (rainfall land_area available_profit : ℚ) (predictor : Features → ℚ)
    (records : List RawRecord) (r : Recommendation)
    (hr : r ∈ predict_route catalog district season soil irrigation rainfall land_area
        available_profit predictor records) :
    ∃ crop ∈ catalog, passes_filter season soil crop = true ∧
      get_price_for_crop crop.crop_name (build_price_dictionary records) ≠ 0 ∧
      r = evaluate crop
            (predictor (make_features (district_mean_of district) rainfall soil irrigation
              season crop))
            (get_price_for_crop crop.crop_name (build_price_dictionary records)) land_area ∧
      0 < r.market_price_per_quintal := by
  obtain ⟨crop, hcrop, hpass, hp0, heq⟩ :=
    predict_route_spec catalog district season soil irrigation rainfall land_area
      available_profit predictor records r hr
  refine ⟨crop, hcrop, hpass, hp0, heq, ?_⟩
  rcases get_price_bounds records crop.crop_name with h | ⟨h100, -⟩
  · exact absurd h hp0
  · have hmp : r.market_price_per_quintal =
        pyRound2 (get_price_for_crop crop.crop_name (build_price_dictionary records)) := by
      rw [heq]; rfl
    rw [hmp]
    have := pyRound2_ge_100 h100
    linarith

/-- Witness for C8: a one-crop catalog and a single 500-rupee ragi quote;
the emitted record is the evaluation of that crop at price 500. -/
theorem C8_output_invariant_witness :
    ((⟨"ragi", 5, 500, 20000, -15000, -75, "Stable"⟩ : Recommendation) ∈
      predict_route [mkCrop] "Mandya" "Kharif" "Red" "Borewell" 800 2 50000 (fun _ => 5)
        [⟨some "ragi", some 500⟩]) ∧
    (∃ crop ∈ [mkCrop], passes_filter "Kharif" "Red" crop = true ∧
      get_price_for_crop crop.crop_name
        (build_price_dictionary [⟨some "ragi", some 500⟩]) ≠ 0 ∧
      (⟨"ragi", 5, 500, 20000, -15000, -75, "Stable"⟩ : Recommendation) =
        evaluate crop 5
          (get_price_for_crop crop.crop_name
            (build_price_dictionary [⟨some "ragi", some 500⟩])) 2 ∧
      0 < (⟨"ragi", 5, 500, 20000, -15000, -75, "Stable"⟩ :
            Recommendation).market_price_per_quintal) := by
  have hm : (⟨"ragi", 5, 500, 20000, -15000, -75, "Stable"⟩ : Recommendation) ∈
      predict_route [mkCrop] "Mandya" "Kharif" "Red" "Borewell" 800 2 50000 (fun _ => 5)
        [⟨some "ragi", some 500⟩] := by
    have hdict : build_price_dictionary [⟨some "ragi", some 500⟩] = [("ragi", 500)] := by
      decide
    have hpass : passes_filter "Kharif" "Red" mkCrop = true := by decide
    have hprice : get_price_for_crop mkCrop.crop_name [("ragi", 500)] = 500 := by decide
    simp only [predict_route, hdict, List.filterMap, eval_crop, hpass, hprice, if_true]
    norm_num [evaluate, compute_roi, risk_level, pyRound2, roundHalfEven, rank, recGE,
      List.insertionSort, List.orderedInsert, mkCrop]
  exact ⟨hm, C8_output_invariant [mkCrop] "Mandya" "Kharif" "Red" "Borewell" 800 2 50000
    (fun _ => 5) [⟨some "ragi", some 500⟩] _ hm⟩

/-- Claim C10: every price stored by `build_price_dictionary` lies in
[100, 30000]; hence every resolved price is 0 or at least 100, and every
reported `market_price_per_quintal` is at least 100 — never strictly
between 0 and 100. -/
theorem C10_price_floor :
    (∀ records : List RawRecord, ∀ kv ∈ build_price_dictionary records,
        100 ≤ kv.2 ∧ kv.2 ≤ 30000) ∧
    (∀ (records : List RawRecord) (name : String),
        get_price_for_crop name (build_price_dictionary records) = 0 ∨
          100 ≤ get_price_for_crop name (build_price_dictionary records)) ∧
    (∀ (catalog : List CropRow) (district season soil irrigation : String)
        (rainfall land_area available_profit : ℚ) (predictor : Features → ℚ)
        (records : List RawRecord) (r : Recommendation),
        r ∈ predict_route catalog district season soil irrigation rainfall land_area
            available_profit predictor records →
        100 ≤ r.market_price_per_quintal ∧
          ¬(0 < r.market_price_per_quintal ∧ r.market_price_per_quintal < 100)) := by
  refine ⟨build_price_dictionary_bounds, ?_, ?_⟩
  · intro records name
    rcases get_price_bounds records name with h | ⟨h1, -⟩
    · exact Or.inl h
    · exact Or.inr h1
  · intro catalog district season soil irrigation rainfall land_area ap predictor records r hr
    obtain ⟨crop, -, -, hp0, heq⟩ :=
      predict_route_spec catalog district season soil irrigation rainfall land_area
        ap predictor records r hr
    rcases get_price_bounds records crop.crop_name with h | ⟨h100, -⟩
    · exact absurd h hp0
    · have hmp : r.market_price_per_quintal =
          pyRound2 (get_price_for_crop crop.crop_name (build_price_dictionary records)) := by
        rw [heq]; rfl
      have hge := pyRound2_ge_100 h100
      constructor
      · rw [hmp]; exact hge
      · rintro ⟨-, hlt⟩
        rw [hmp] at hlt
        linarith

/-- Witness for C10 at the dictionary built from a single 500-rupee quote. -/
theorem C10_price_floor_witness :
    (("ragi", (500 : ℚ)) ∈ build_price_dictionary [⟨some "ragi", some 500⟩]) ∧
    (100 ≤ (("ragi", (500 : ℚ)) : String × ℚ).2 ∧
      (("ragi", (500 : ℚ)) : String × ℚ).2 ≤ 30000) :=
  ⟨by decide, C10_price_floor.1 [⟨some "ragi", some 500⟩] ("ragi", 500) (by decide)⟩
